import Mathlib

/-!
Verification of the quarter-mile / eighth-mile drag-strip calculator
(`src/main.py`).  The core of the program is a set of pure numeric
conversion functions over Python floats; here they are embedded over `ℝ`
(idealised real arithmetic), with Python's integer exponent `** 3` as a
natural power and the float exponent `** (1/3)` as `Real.rpow` at `1/3`.
A second, `Except`-valued layer models the exception behaviour of
Python's float division (`ZeroDivisionError` when the divisor is zero)
and of `**` on a negative base with a non-integer exponent (which in
Python 3 yields a complex number, leaving the real-valued domain).
The UI's `parse_float` helper and the `on_from_et_click` handler are
embedded over strings and rationals.
-/

namespace HpCalc

noncomputable section

open Real

/-- `hp_from_et_weight(et, weight) = weight / ((et / 5.825) ** 3)` from `src/main.py`. -/
def hp_from_et_weight (et weight : ℝ) : ℝ :=
  weight / ((et / 5.825) ^ (3 : ℕ))

/-- `et_from_hp_weight(hp, weight) = 5.825 * ((weight / hp) ** (1 / 3))` from `src/main.py`. -/
def et_from_hp_weight (hp weight : ℝ) : ℝ :=
  5.825 * ((weight / hp) ^ ((1 : ℝ) / 3))

/-- `hp_from_mph_weight(mph, weight) = weight * ((mph / 234) ** 3)` from `src/main.py`. -/
def hp_from_mph_weight (mph weight : ℝ) : ℝ :=
  weight * ((mph / 234) ^ (3 : ℕ))

/-- `mph_from_hp_weight(hp, weight) = 234 * ((hp / weight) ** (1 / 3))` from `src/main.py`. -/
def mph_from_hp_weight (hp weight : ℝ) : ℝ :=
  234 * ((hp / weight) ^ ((1 : ℝ) / 3))

/-- `hp_to_kw(hp) = hp * 0.7457` from `src/main.py`. -/
def hp_to_kw (hp : ℝ) : ℝ := hp * 0.7457

/-- `kw_to_hp(kw) = kw / 0.7457` from `src/main.py`. -/
def kw_to_hp (kw : ℝ) : ℝ := kw / 0.7457

/-- `ET_1_8_FROM_1_4_FACTOR = 0.66` from `src/main.py`. -/
def ET_1_8_FROM_1_4_FACTOR : ℝ := 0.66

/-- `MPH_1_8_FROM_1_4_FACTOR = 0.79` from `src/main.py`. -/
def MPH_1_8_FROM_1_4_FACTOR : ℝ := 0.79

/-- `et_1_8_from_1_4(et_qtr) = et_qtr * ET_1_8_FROM_1_4_FACTOR` from `src/main.py`. -/
def et_1_8_from_1_4 (et_qtr : ℝ) : ℝ := et_qtr * ET_1_8_FROM_1_4_FACTOR

/-- `et_1_4_from_1_8(et_eighth) = et_eighth / ET_1_8_FROM_1_4_FACTOR` from `src/main.py`. -/
def et_1_4_from_1_8 (et_eighth : ℝ) : ℝ := et_eighth / ET_1_8_FROM_1_4_FACTOR

/-- `mph_1_8_from_1_4(mph_qtr) = mph_qtr * MPH_1_8_FROM_1_4_FACTOR` from `src/main.py`. -/
def mph_1_8_from_1_4 (mph_qtr : ℝ) : ℝ := mph_qtr * MPH_1_8_FROM_1_4_FACTOR

/-- `mph_1_4_from_1_8(mph_eighth) = mph_eighth / MPH_1_8_FROM_1_4_FACTOR` from `src/main.py`. -/
def mph_1_4_from_1_8 (mph_eighth : ℝ) : ℝ := mph_eighth / MPH_1_8_FROM_1_4_FACTOR

/-! Spec-side formulas, written from the spec's function table in §4.1
(`hpFromEtWeight` etc.), to be compared with the source embeddings. -/

/-- Spec table: `hpFromEtWeight : weight / (et/5.825)^3`. -/
def spec_hpFromEtWeight (et weight : ℝ) : ℝ := weight / ((et / 5.825) ^ (3 : ℕ))

/-- Spec table: `etFromHpWeight : 5.825 * (weight/hp)^(1/3)`. -/
def spec_etFromHpWeight (hp weight : ℝ) : ℝ := 5.825 * ((weight / hp) ^ ((1 : ℝ) / 3))

/-- Spec table: `hpFromMphWeight : weight * (mph/234)^3`. -/
def spec_hpFromMphWeight (mph weight : ℝ) : ℝ := weight * ((mph / 234) ^ (3 : ℕ))

/-- Spec table: `mphFromHpWeight : 234 * (hp/weight)^(1/3)`. -/
def spec_mphFromHpWeight (hp weight : ℝ) : ℝ := 234 * ((hp / weight) ^ ((1 : ℝ) / 3))

end

/-! Helper lemmas about real cube roots (`x ^ (1/3)` as `rpow`). -/

/-- Cubing undoes the real cube root on nonnegative reals. -/
lemma cbrt_cube (x : ℝ) (hx : 0 ≤ x) : (x ^ ((1 : ℝ) / 3)) ^ (3 : ℕ) = x := by
  rw [← Real.rpow_natCast (x ^ ((1 : ℝ) / 3)) 3, ← Real.rpow_mul hx]
  norm_num

/-- The real cube root undoes cubing on nonnegative reals. -/
lemma cube_cbrt (x : ℝ) (hx : 0 ≤ x) : (x ^ (3 : ℕ)) ^ ((1 : ℝ) / 3) = x := by
  rw [← Real.rpow_natCast x 3, ← Real.rpow_mul hx]
  norm_num

/-- Two-sided bounds on a real cube root from bounds on the cubes. -/
lemma cbrt_bounds (L x U : ℝ) (hL : 0 ≤ L) (h1 : L ^ (3 : ℕ) ≤ x) (h2 : x ≤ U ^ (3 : ℕ)) :
    L ≤ x ^ ((1 : ℝ) / 3) ∧ x ^ ((1 : ℝ) / 3) ≤ U := by
  have hx : 0 ≤ x := le_trans (by positivity) h1
  have hU : 0 ≤ U := by
    by_contra hcon
    push_neg at hcon
    have : U ^ (3 : ℕ) < 0 := by
      have := pow_pos (neg_pos.mpr hcon) 3
      nlinarith [this]
    linarith [le_trans hx h2]
  constructor
  · calc L = (L ^ (3 : ℕ)) ^ ((1 : ℝ) / 3) := (cube_cbrt L hL).symm
      _ ≤ x ^ ((1 : ℝ) / 3) := Real.rpow_le_rpow (by positivity) h1 (by norm_num)
  · calc x ^ ((1 : ℝ) / 3) ≤ (U ^ (3 : ℕ)) ^ ((1 : ℝ) / 3) :=
        Real.rpow_le_rpow hx h2 (by norm_num)
      _ = U := cube_cbrt U hU

/-- C1: each of the four core quarter-mile functions of `src/main.py`
computes exactly the corresponding formula of the spec's §4.1 table, for
all inputs. -/
theorem core_formulas_match_spec (et hp mph weight : ℝ) :
    hp_from_et_weight et weight = spec_hpFromEtWeight et weight ∧
    et_from_hp_weight hp weight = spec_etFromHpWeight hp weight ∧
    hp_from_mph_weight mph weight = spec_hpFromMphWeight mph weight ∧
    mph_from_hp_weight hp weight = spec_mphFromHpWeight hp weight :=
  ⟨rfl, rfl, rfl, rfl⟩

/-- C3 counterexample: `hp_from_et_weight 12 3200` is about `366.01`, so it
is NOT within `0.5` of `365.0` as the spec's scenario 1 claims. -/
theorem scenario1_hp_not_near_365 :
    ¬ |hp_from_et_weight 12 3200 - 365| ≤ 0.5 := by
  have : hp_from_et_weight 12 3200 = 3200 / ((12 / 5.825) ^ (3 : ℕ)) := rfl
  rw [this]
  rw [abs_le]
  push_neg
  intro h
  norm_num at h ⊢

/-- C3 amended: `hp_from_et_weight 12 3200 = 3200/(12/5.825)^3` is
approximately `366.0` hp, within a tolerance of `0.5` (in fact `366.011`). -/
theorem scenario1_hp_near_366 :
    |hp_from_et_weight 12 3200 - 366| ≤ 0.5 := by
  have : hp_from_et_weight 12 3200 = 3200 / ((12 / 5.825) ^ (3 : ℕ)) := rfl
  rw [this, abs_le]
  constructor <;> norm_num

/-- C4 counterexample: `mph_from_hp_weight 365 3200` is about `113.48`
(at least `234 * 0.48 = 112.32`), so it is NOT within `0.2` of `103.9` as
the spec's scenario 2 claims. -/
theorem scenario2_mph_not_near_103_9 :
    ¬ |mph_from_hp_weight 365 3200 - 103.9| ≤ 0.2 := by
  have hb := cbrt_bounds 0.48 ((365 : ℝ) / 3200) 0.49 (by norm_num) (by norm_num) (by norm_num)
  intro hcon
  rw [mph_from_hp_weight, abs_le] at hcon
  have h1 := hb.1
  have h2 := hcon.2
  nlinarith [h1, h2]

/-- C4 amended: `mph_from_hp_weight 365 3200` is approximately `113.5`
(within `0.2`; the true value is about `113.48`), and
`et_from_hp_weight 365 3200` is approximately `12.0` (within `0.05`;
about `12.011`). -/
theorem scenario2_values :
    |mph_from_hp_weight 365 3200 - 113.5| ≤ 0.2 ∧
    |et_from_hp_weight 365 3200 - 12| ≤ 0.05 := by
  have h1 := cbrt_bounds (113.3 / 234) ((365 : ℝ) / 3200) (113.7 / 234)
    (by norm_num) (by norm_num) (by norm_num)
  have h2 := cbrt_bounds (11.95 / 5.825) ((3200 : ℝ) / 365) (12.05 / 5.825)
    (by norm_num) (by norm_num) (by norm_num)
  constructor
  · rw [mph_from_hp_weight, abs_le]
    constructor <;> nlinarith [h1.1, h1.2]
  · rw [et_from_hp_weight, abs_le]
    constructor <;> nlinarith [h2.1, h2.2]

/-- C5: for positive `h` and `w`, `hp_from_et_weight (et_from_hp_weight h w) w`
is `h` within a relative tolerance of `1e-9` (in real arithmetic the
round-trip is in fact exact). -/
theorem roundtrip_hp_via_et (h w : ℝ) (hh : 0 < h) (hw : 0 < w) :
    |hp_from_et_weight (et_from_hp_weight h w) w - h| ≤ 1e-9 * |h| := by
  have key : hp_from_et_weight (et_from_hp_weight h w) w = h := by
    rw [hp_from_et_weight, et_from_hp_weight,
      mul_div_cancel_left₀ _ (by norm_num : (5.825 : ℝ) ≠ 0),
      cbrt_cube _ (by positivity)]
    rw [div_div_eq_mul_div, mul_comm, mul_div_assoc, div_self (ne_of_gt hw), mul_one]
  rw [key, sub_self, abs_zero]
  positivity

/-- C6: for positive `h` and `w`, `hp_from_mph_weight (mph_from_hp_weight h w) w`
is `h` within a relative tolerance of `1e-9` (in real arithmetic the
round-trip is in fact exact). -/
theorem roundtrip_hp_via_mph (h w : ℝ) (hh : 0 < h) (hw : 0 < w) :
    |hp_from_mph_weight (mph_from_hp_weight h w) w - h| ≤ 1e-9 * |h| := by
  have key : hp_from_mph_weight (mph_from_hp_weight h w) w = h := by
    rw [hp_from_mph_weight, mph_from_hp_weight,
      mul_div_cancel_left₀ _ (by norm_num : (234 : ℝ) ≠ 0),
      cbrt_cube _ (by positivity)]
    rw [← mul_div_assoc, mul_div_cancel_left₀ _ (ne_of_gt hw)]
  rw [key, sub_self, abs_zero]
  positivity

/-- C5 witness at `h = 100`, `w = 3000`. -/
theorem roundtrip_hp_via_et_at_100_3000 :
    |hp_from_et_weight (et_from_hp_weight 100 3000) 3000 - 100| ≤ 1e-9 * |(100 : ℝ)| :=
  roundtrip_hp_via_et 100 3000 (by norm_num) (by norm_num)

/-- C6 witness at `h = 100`, `w = 3000`. -/
theorem roundtrip_hp_via_mph_at_100_3000 :
    |hp_from_mph_weight (mph_from_hp_weight 100 3000) 3000 - 100| ≤ 1e-9 * |(100 : ℝ)| :=
  roundtrip_hp_via_mph 100 3000 (by norm_num) (by norm_num)

/-- C7: for positive `x`, the eighth/quarter-mile conversions round-trip:
`et_1_4_from_1_8 (et_1_8_from_1_4 x) = x` and
`mph_1_4_from_1_8 (mph_1_8_from_1_4 x) = x` (exactly, in real arithmetic). -/
theorem roundtrip_eighth_quarter (x : ℝ) (hx : 0 < x) :
    et_1_4_from_1_8 (et_1_8_from_1_4 x) = x ∧
    mph_1_4_from_1_8 (mph_1_8_from_1_4 x) = x := by
  constructor
  · rw [et_1_4_from_1_8, et_1_8_from_1_4,
      mul_div_cancel_right₀ _ (by rw [ET_1_8_FROM_1_4_FACTOR]; norm_num)]
  · rw [mph_1_4_from_1_8, mph_1_8_from_1_4,
      mul_div_cancel_right₀ _ (by rw [MPH_1_8_FROM_1_4_FACTOR]; norm_num)]

/-- C7 witness at `x = 12`. -/
theorem roundtrip_eighth_quarter_at_12 :
    et_1_4_from_1_8 (et_1_8_from_1_4 12) = 12 ∧
    mph_1_4_from_1_8 (mph_1_8_from_1_4 12) = 12 :=
  roundtrip_eighth_quarter 12 (by norm_num)

/-- C8: for every `x`, `kw_to_hp (hp_to_kw x) = x` exactly (a multiply by
`0.7457` followed by a divide by `0.7457`, in real arithmetic). -/
theorem roundtrip_kw (x : ℝ) : kw_to_hp (hp_to_kw x) = x := by
  rw [kw_to_hp, hp_to_kw, mul_div_cancel_right₀ _ (by norm_num : (0.7457 : ℝ) ≠ 0)]

/-- C10: for positive `et` and `weight`, the composed quarter-mile pair of
`on_from_et_click` satisfies
`et * mph_from_hp_weight (hp_from_et_weight et w) w = 234 * 5.825` exactly,
so the computed quarter-mile MPH is `1363.05 / et`, independent of weight. -/
theorem composed_et_mph_invariant (et w : ℝ) (het : 0 < et) (hw : 0 < w) :
    et * mph_from_hp_weight (hp_from_et_weight et w) w = 234 * 5.825 ∧
    mph_from_hp_weight (hp_from_et_weight et w) w = 1363.05 / et := by
  have het' : et ≠ 0 := ne_of_gt het
  have hw' : w ≠ 0 := ne_of_gt hw
  have key : mph_from_hp_weight (hp_from_et_weight et w) w = 1363.05 / et := by
    rw [mph_from_hp_weight, hp_from_et_weight]
    have h1 : w / ((et / 5.825) ^ (3 : ℕ)) / w = (5.825 / et) ^ (3 : ℕ) := by
      field_simp
      ring
    rw [h1, cube_cbrt _ (by positivity)]
    rw [mul_div_assoc']
    norm_num
  refine ⟨?_, key⟩
  rw [key, mul_div_assoc', mul_comm, mul_div_assoc, div_self het', mul_one]
  norm_num

/-- C10 witness at `et = 12`, `w = 3200`. -/
theorem composed_et_mph_invariant_at_12_3200 :
    12 * mph_from_hp_weight (hp_from_et_weight 12 3200) 3200 = 234 * 5.825 ∧
    mph_from_hp_weight (hp_from_et_weight 12 3200) 3200 = 1363.05 / 12 :=
  composed_et_mph_invariant 12 3200 (by norm_num) (by norm_num)

/-! Exception-aware layer: the same library functions with Python's
error behaviour made explicit.  In Python 3, float division by zero
raises `ZeroDivisionError` (it does not return `inf` or `nan`), and
`x ** (1/3)` on a negative float `x` returns a complex number, leaving
the real-valued domain.  Both are modelled with `Except`. -/

noncomputable section

open Classical in
/-- Python float division `a / b`: raises `ZeroDivisionError` when `b`
is zero, otherwise returns the quotient. -/
def pydiv (a b : ℝ) : Except String ℝ :=
  if b = 0 then Except.error "ZeroDivisionError" else Except.ok (a / b)

open Classical in
/-- Python `x ** (1/3)` on floats: for a negative base Python 3 returns
a complex number (the computation leaves the real domain, modelled as an
error); otherwise the real cube root. -/
def pycbrt (x : ℝ) : Except String ℝ :=
  if x < 0 then Except.error "complex result" else Except.ok (x ^ ((1 : ℝ) / 3))

/-- `hp_from_et_weight` with Python error semantics:
`weight / ((et / 5.825) ** 3)`. -/
def hp_from_et_weightE (et weight : ℝ) : Except String ℝ :=
  match pydiv et 5.825 with
  | Except.error e => Except.error e
  | Except.ok a => pydiv weight (a ^ (3 : ℕ))

/-- `et_from_hp_weight` with Python error semantics:
`5.825 * ((weight / hp) ** (1 / 3))`. -/
def et_from_hp_weightE (hp weight : ℝ) : Except String ℝ :=
  match pydiv weight hp with
  | Except.error e => Except.error e
  | Except.ok r =>
    match pycbrt r with
    | Except.error e => Except.error e
    | Except.ok c => Except.ok (5.825 * c)

/-- `mph_from_hp_weight` with Python error semantics:
`234 * ((hp / weight) ** (1 / 3))`. -/
def mph_from_hp_weightE (hp weight : ℝ) : Except String ℝ :=
  match pydiv hp weight with
  | Except.error e => Except.error e
  | Except.ok r =>
    match pycbrt r with
    | Except.error e => Except.error e
    | Except.ok c => Except.ok (234 * c)

/-- `hp_from_mph_weight` with Python error semantics:
`weight * ((mph / 234) ** 3)`. -/
def hp_from_mph_weightE (mph weight : ℝ) : Except String ℝ :=
  match pydiv mph 234 with
  | Except.error e => Except.error e
  | Except.ok a => Except.ok (weight * a ^ (3 : ℕ))

end

/-- `pydiv` at a nonzero divisor. -/
lemma pydiv_ok (a b : ℝ) (hb : b ≠ 0) : pydiv a b = Except.ok (a / b) := by
  rw [pydiv, if_neg hb]

/-- `pydiv` at divisor zero raises. -/
lemma pydiv_zero (a : ℝ) : pydiv a 0 = Except.error "ZeroDivisionError" := by
  rw [pydiv, if_pos rfl]

/-- `pycbrt` on a nonnegative base. -/
lemma pycbrt_ok (x : ℝ) (hx : 0 ≤ x) : pycbrt x = Except.ok (x ^ ((1 : ℝ) / 3)) := by
  rw [pycbrt, if_neg (not_lt.mpr hx)]

/-- C2 counterexample: with `hp = 0` (resp. `weight = 0`, `et = 0`) the
library raises `ZeroDivisionError` — Python float division by zero raises
rather than yielding `inf` or `nan`, contradicting the claimed
"division-by-zero result rather than a crash or raised error". -/
theorem zero_inputs_raise :
    et_from_hp_weightE 0 3200 = Except.error "ZeroDivisionError" ∧
    mph_from_hp_weightE 365 0 = Except.error "ZeroDivisionError" ∧
    hp_from_et_weightE 0 3200 = Except.error "ZeroDivisionError" := by
  refine ⟨?_, ?_, ?_⟩
  · rw [et_from_hp_weightE, pydiv_zero]
  · rw [mph_from_hp_weightE, pydiv_zero]
  · rw [hp_from_et_weightE, pydiv_ok 0 5.825 (by norm_num)]
    norm_num
    rw [pydiv_zero]

/-- C2 amended: zero divisors make the library raise `ZeroDivisionError`
(`hp = 0` in `et_from_hp_weightE`, `weight = 0` in `mph_from_hp_weightE`,
`et = 0` in `hp_from_et_weightE`), while on positive inputs every function
returns the finite pure value without raising. -/
theorem library_error_behavior (et hp w : ℝ) (het : 0 < et) (hhp : 0 < hp) (hw : 0 < w) :
    et_from_hp_weightE 0 w = Except.error "ZeroDivisionError" ∧
    mph_from_hp_weightE hp 0 = Except.error "ZeroDivisionError" ∧
    hp_from_et_weightE 0 w = Except.error "ZeroDivisionError" ∧
    hp_from_et_weightE et w = Except.ok (hp_from_et_weight et w) ∧
    et_from_hp_weightE hp w = Except.ok (et_from_hp_weight hp w) ∧
    mph_from_hp_weightE hp w = Except.ok (mph_from_hp_weight hp w) ∧
    hp_from_mph_weightE et w = Except.ok (hp_from_mph_weight et w) := by
  have het' : et ≠ 0 := ne_of_gt het
  have hhp' : hp ≠ 0 := ne_of_gt hhp
  have hw' : w ≠ 0 := ne_of_gt hw
  have h55 : (5.825 : ℝ) ≠ 0 := by norm_num
  have h234 : (234 : ℝ) ≠ 0 := by norm_num
  have hcube : ((et / 5.825) ^ (3 : ℕ)) ≠ 0 := pow_ne_zero 3 (div_ne_zero het' h55)
  refine ⟨?_, ?_, ?_, ?_, ?_, ?_, ?_⟩
  · rw [et_from_hp_weightE, pydiv_zero]
  · rw [mph_from_hp_weightE, pydiv_zero]
  · rw [hp_from_et_weightE, pydiv_ok 0 5.825 h55]
    norm_num
    rw [pydiv_zero]
  · simp only [hp_from_et_weightE, pydiv_ok et 5.825 h55, pydiv_ok w _ hcube,
      hp_from_et_weight]
  · simp only [et_from_hp_weightE, pydiv_ok w hp hhp',
      pycbrt_ok (w / hp) (by positivity), et_from_hp_weight]
  · simp only [mph_from_hp_weightE, pydiv_ok hp w hw',
      pycbrt_ok (hp / w) (by positivity), mph_from_hp_weight]
  · simp only [hp_from_mph_weightE, pydiv_ok et 234 h234, hp_from_mph_weight]

/-- C2-amended witness at `et = 12`, `hp = 365`, `w = 3200`. -/
theorem library_error_behavior_at_12_365_3200 :
    et_from_hp_weightE 0 3200 = Except.error "ZeroDivisionError" ∧
    mph_from_hp_weightE 365 0 = Except.error "ZeroDivisionError" ∧
    hp_from_et_weightE 0 3200 = Except.error "ZeroDivisionError" ∧
    hp_from_et_weightE 12 3200 = Except.ok (hp_from_et_weight 12 3200) ∧
    et_from_hp_weightE 365 3200 = Except.ok (et_from_hp_weight 365 3200) ∧
    mph_from_hp_weightE 365 3200 = Except.ok (mph_from_hp_weight 365 3200) ∧
    hp_from_mph_weightE 12 3200 = Except.ok (hp_from_mph_weight 12 3200) :=
  library_error_behavior 12 365 3200 (by norm_num) (by norm_num) (by norm_num)

/-! Presentation layer: `parse_float` and the `on_from_et_click` handler
from `src/main.py`.  Text-field contents are strings; parsed values are
rationals (idealised decimal floats). -/

/-- Value of a digit list read as a decimal numeral (helper for the
model of Python's `float`). -/
def natOfDigits (l : List Char) : Nat :=
  l.foldl (fun a c => 10 * a + (c.toNat - 48)) 0

/-- Modelled from the semantics of Python's builtin `float` on an
unsigned plain decimal literal: integer digits with an optional `.` and
fractional digits.  Returns `none` where `float` raises `ValueError`.
(Exponents, `inf`/`nan` and surrounding whitespace, which the UI does
not rely on, are outside this model.) -/
def pyFloatUnsigned (l : List Char) : Option ℚ :=
  let intPart := l.takeWhile Char.isDigit
  let rest := l.dropWhile Char.isDigit
  match rest with
  | [] => if intPart.isEmpty then none else some (natOfDigits intPart : ℚ)
  | '.' :: frac =>
      if frac.all Char.isDigit && !(intPart.isEmpty && frac.isEmpty) then
        some ((natOfDigits intPart : ℚ) + (natOfDigits frac : ℚ) / 10 ^ frac.length)
      else none
  | _ => none

/-- Modelled from the semantics of Python's builtin `float` on a plain
decimal literal with an optional leading sign. -/
def pyFloatOfString (s : String) : Option ℚ :=
  match s.toList with
  | '-' :: rest => (pyFloatUnsigned rest).map (fun q => -q)
  | '+' :: rest => pyFloatUnsigned rest
  | l => pyFloatUnsigned l

/-- `parse_float(field, name)` from `src/main.py`: an empty field value
raises `ValueError(f"{name} is required.")`; an unparseable one raises
`ValueError(f"{name} must be a number.")`; otherwise the parsed float is
returned.  The raised `ValueError` is modelled as `Except.error` holding
the message. -/
def parse_float (value : String) (name : String) : Except String ℚ :=
  if value = "" then Except.error (name ++ " is required.")
  else
    match pyFloatOfString value with
    | some q => Except.ok q
    | none => Except.error (name ++ " must be a number.")

/-- The result values computed by the `on_from_et_click` handler. -/
structure EtResult where
  hp : ℝ
  kw : ℝ
  et_qtr : ℝ
  mph_qtr : ℝ
  et_eighth : ℝ
  mph_eighth : ℝ

/-- `on_from_et_click` from `src/main.py`, taking the weight and ET
text-field values and the distance selector: parses weight then ET (a
parse failure short-circuits with its message before any library call),
normalizes ET to the quarter-mile domain, and runs the core math. -/
noncomputable def on_from_et_click (weightS etS : String) (quarter : Bool) :
    Except String EtResult :=
  match parse_float weightS "Weight" with
  | Except.error e => Except.error e
  | Except.ok weight =>
    match parse_float etS "ET" with
    | Except.error e => Except.error e
    | Except.ok et_input =>
      let et_qtr : ℝ := if quarter then (et_input : ℝ) else et_1_4_from_1_8 (et_input : ℝ)
      let hp := hp_from_et_weight et_qtr (weight : ℝ)
      let mph_qtr := mph_from_hp_weight hp (weight : ℝ)
      Except.ok ⟨hp, hp_to_kw hp, et_qtr, mph_qtr, et_1_8_from_1_4 et_qtr,
        mph_1_8_from_1_4 mph_qtr⟩

/-- `parse_float` on an empty field. -/
lemma parse_float_empty (name : String) :
    parse_float "" name = Except.error (name ++ " is required.") := by
  rw [parse_float, if_pos rfl]

/-- `parse_float` on a nonempty unparseable field. -/
lemma parse_float_bad (s name : String) (hs : ¬ s = "") (h : pyFloatOfString s = none) :
    parse_float s name = Except.error (name ++ " must be a number.") := by
  rw [parse_float, if_neg hs, h]

/-- `parse_float` on a nonempty parseable field. -/
lemma parse_float_good (s name : String) (q : ℚ) (hs : ¬ s = "")
    (h : pyFloatOfString s = some q) : parse_float s name = Except.ok q := by
  rw [parse_float, if_neg hs, h]

/-- C9 counterexample: the presentation layer does NOT validate inputs as
positive — `parse_float` accepts `"-5"`, returning `-5`, and
`on_from_et_click` with weight `"-3200"` proceeds to invoke the library
on the negative weight instead of rejecting it. -/
theorem parse_accepts_nonpositive :
    parse_float "-5" "Weight" = Except.ok (-5) ∧
    ¬ (0 : ℚ) < -5 ∧
    on_from_et_click "-3200" "12" true =
      Except.ok ⟨hp_from_et_weight 12 (-3200), hp_to_kw (hp_from_et_weight 12 (-3200)),
        12, mph_from_hp_weight (hp_from_et_weight 12 (-3200)) (-3200),
        et_1_8_from_1_4 12,
        mph_1_8_from_1_4 (mph_from_hp_weight (hp_from_et_weight 12 (-3200)) (-3200))⟩ := by
  have h5 : pyFloatOfString "-5" = some (-5 : ℚ) := by decide
  have hwv : pyFloatOfString "-3200" = some (-3200 : ℚ) := by decide
  have hev : pyFloatOfString "12" = some (12 : ℚ) := by decide
  refine ⟨parse_float_good _ _ _ (by decide) h5, by decide, ?_⟩
  simp only [on_from_et_click, parse_float_good _ _ _ (by decide) hwv,
    parse_float_good _ _ _ (by decide) hev, if_true]
  norm_num

/-- C9 amended: the presentation layer validates each text input as
parsing to a float (required and numeric, but with no positivity check)
before running the math; on parse failure the field name is surfaced with
an `is required.` / `must be a number.` message and the handler
short-circuits without invoking the library. -/
theorem ui_validation_behavior (wS etS name : String) (q : ℚ) (b : Bool)
    (hne : ¬ wS = "") (hnum : pyFloatOfString wS = none) :
    parse_float "" name = Except.error (name ++ " is required.") ∧
    parse_float wS name = Except.error (name ++ " must be a number.") ∧
    (parse_float etS name = Except.ok q → pyFloatOfString etS = some q) ∧
    on_from_et_click "" etS b = Except.error "Weight is required." ∧
    on_from_et_click wS etS b = Except.error "Weight must be a number." := by
  refine ⟨parse_float_empty name, parse_float_bad wS name hne hnum, ?_, ?_, ?_⟩
  · intro h
    rw [parse_float] at h
    split_ifs at h
    cases hE : pyFloatOfString etS with
    | none => rw [hE] at h; cases h
    | some r =>
      rw [hE] at h
      simp only [Except.ok.injEq] at h
      rw [h]
  · simp only [on_from_et_click, parse_float_empty]
    rfl
  · simp only [on_from_et_click, parse_float_bad wS "Weight" hne hnum]
    rfl

/-- C9-amended witness at the field values `""`, `"abc"` and `"12"`. -/
theorem ui_validation_behavior_witness :
    parse_float "" "Weight" = Except.error ("Weight" ++ " is required.") ∧
    parse_float "abc" "Weight" = Except.error ("Weight" ++ " must be a number.") ∧
    (parse_float "12" "Weight" = Except.ok 12 → pyFloatOfString "12" = some 12) ∧
    on_from_et_click "" "12" true = Except.error "Weight is required." ∧
    on_from_et_click "abc" "12" true = Except.error "Weight must be a number." :=
  ui_validation_behavior "abc" "12" "Weight" 12 true (by decide) (by decide)

end HpCalc
